import Mathlib

/-!
Verification development for the ChainSage backend proxy.

The repository contains several variants of one Netlify serverless function:
a natural-language question is turned into a query by an LLM call, the query
is executed against a blockchain-data provider, and the rows are summarized
by a second LLM call.  We shallowly embed the pipeline logic of the variants
the claims are about:

* the Mobula variant (`chainsage-proxy.js`, first document): handler,
  `getModulaEndpointAndParams`, `summarizeModulaData`;
* the Covalent variant (`chainsage-proxy.js`, second document):
  `convertNLtoSQL`, `mapSQLtoCovalentApi`, `executeCovalentApiCall`,
  `summarizeCovalentData`, handler;
* the Flipside V2 JSON-RPC variant (`unnamed/part_000`, second document):
  `convertNLtoSQL`, `submitFlipsideQuery`, `getFlipsideQueryStatus`,
  `waitForFlipsideExecution`, `getFlipsideQueryResults`,
  `summarizeFlipsideData`, handler;
* the Dune variant (`unnamed/part_002`): `summarizeData`.

External effects (fetch to Gemini / the data provider, `JSON.parse` of model
output, the wall clock) are abstracted as oracles supplied in an environment
record; every call to an external collaborator is recorded in a trace so that
"no provider call was made" is a statement about the trace.  JavaScript
values are modelled by a small JSON datatype with JS truthiness, property
access (including the TypeError raised when reading a property of
null/undefined) and `JSON.stringify` serialization.  Thrown JS errors are
modelled as `Except String` carrying the error message.
-/

/-- A JSON value, the universe of JavaScript data handled by the proxy.
Numbers are modelled as integers (every numeric constant in the sources is
integral). -/
inductive Json where
  | null : Json
  | bool : Bool → Json
  | num : Int → Json
  | str : String → Json
  | arr : List Json → Json
  | obj : List (String × Json) → Json

/-- JS truthiness of a value (`!v` in the sources is `¬ truthy v`). -/
def Json.truthy : Json → Bool
  | .null => false
  | .bool b => b
  | .num n => n != 0
  | .str s => s != ""
  | .arr _ => true
  | .obj _ => true

/-- Truthiness of a possibly-undefined value (`none` models `undefined`). -/
def jsTruthy : Option Json → Bool
  | none => false
  | some j => j.truthy

/-- Does the value equal the given string (the `===` comparisons of the
`switch` statements)? -/
def Json.isStr : Json → String → Bool
  | .str t, s => t == s
  | _, _ => false

mutual

/-- `JSON.stringify` (no indent argument): the serialization whose length is
compared against the 5000-character sampling ceiling.  String escaping is
limited to quote and backslash, which covers every string the claims
evaluate. -/
def Json.serialize : Json → String
  | .null => "null"
  | .bool true => "true"
  | .bool false => "false"
  | .num n => toString n
  | .str s => "\"" ++ Json.escapeString s ++ "\""
  | .arr xs => "[" ++ Json.serializeList xs ++ "]"
  | .obj fs => "\x7b" ++ Json.serializeFields fs ++ "\x7d"

/-- Comma-separated serialization of array elements. -/
def Json.serializeList : List Json → String
  | [] => ""
  | [x] => Json.serialize x
  | x :: xs => Json.serialize x ++ "," ++ Json.serializeList xs

/-- Comma-separated serialization of object fields. -/
def Json.serializeFields : List (String × Json) → String
  | [] => ""
  | [(k, v)] => "\"" ++ Json.escapeString k ++ "\":" ++ Json.serialize v
  | (k, v) :: fs =>
      "\"" ++ Json.escapeString k ++ "\":" ++ Json.serialize v ++ ","
        ++ Json.serializeFields fs

/-- Escape a string for `JSON.stringify`. -/
def Json.escapeString (s : String) : String :=
  String.join (s.toList.map fun c =>
    if c = '"' then "\\\"" else if c = '\\' then "\\\\" else String.singleton c)

end

mutual

/-- JS string coercion, as used by template literals (only the string case is
ever exercised by a claim; arrays join their elements with commas,
objects print as `[object Object]`). -/
def Json.jsToString : Json → String
  | .null => "null"
  | .bool true => "true"
  | .bool false => "false"
  | .num n => toString n
  | .str s => s
  | .arr xs => Json.jsToStringList xs
  | .obj _ => "[object Object]"

/-- `Array.prototype.toString`: elements joined with commas, null elements
printing as the empty string. -/
def Json.jsToStringList : List Json → String
  | [] => ""
  | [x] => Json.jsToStringElem x
  | x :: xs => Json.jsToStringElem x ++ "," ++ Json.jsToStringList xs

/-- One array element inside `Array.prototype.toString`. -/
def Json.jsToStringElem : Json → String
  | .null => ""
  | j => Json.jsToString j

end

/-- Optional-chaining property access `v?.k`: `undefined`/`null` receivers
short-circuit to `undefined`; primitive receivers have no such property. -/
def optField (v : Option Json) (k : String) : Option Json :=
  v.bind fun j =>
    match j with
    | .obj fs => fs.lookup k
    | _ => none

/-- Optional-chaining index access `v?.[i]` (array element, string character,
or numeric-keyed object field). -/
def optIndex (v : Option Json) (i : Nat) : Option Json :=
  v.bind fun j =>
    match j with
    | .arr xs => xs[i]?
    | .str s => (s.toList[i]?).map fun c => Json.str (String.singleton c)
    | .obj fs => fs.lookup (toString i)
    | _ => none

/-- Plain (non-optional) property access `v.k`, which throws a TypeError when
the receiver is `undefined` or `null`. -/
def jsGetMember (v : Option Json) (k : String) : Except String (Option Json) :=
  match v with
  | none =>
      .error ("Cannot read properties of undefined (reading \x27" ++ k ++ "\x27)")
  | some .null =>
      .error ("Cannot read properties of null (reading \x27" ++ k ++ "\x27)")
  | some (.obj fs) => .ok (fs.lookup k)
  | some _ => .ok none

/-- Plain index access `v[i]`, which throws a TypeError when the receiver is
`undefined` or `null`. -/
def jsGetIndex (v : Option Json) (i : Nat) : Except String (Option Json) :=
  match v with
  | none =>
      .error ("Cannot read properties of undefined (reading \x27" ++ toString i ++ "\x27)")
  | some .null =>
      .error ("Cannot read properties of null (reading \x27" ++ toString i ++ "\x27)")
  | some j => .ok (optIndex (some j) i)

/-- The `.length === 0` test performed on a truthy value by the explicit
response-structure checks (arrays and strings report their length; other
objects only match when they carry a literal `length` field of 0). -/
def jsLengthIsZero : Option Json → Bool
  | some (.arr xs) => xs.isEmpty
  | some (.str s) => s.length == 0
  | some (.obj fs) =>
      match fs.lookup "length" with
      | some (.num 0) => true
      | _ => false
  | _ => false

/-- `Object.keys` (used to infer column names from the first row). -/
def jsKeys : Json → List String
  | .obj fs => fs.map (·.1)
  | .str s => (List.range s.length).map toString
  | _ => []

/-- JS `String.prototype.trim`, computed over the character list (Lean's
whitespace class stands in for the JS one; every string a claim evaluates is
ASCII). -/
def jsTrim (s : String) : String :=
  (((s.toList.dropWhile Char.isWhitespace).reverse.dropWhile Char.isWhitespace).reverse).asString

/-- Lower-casing over the character list (the `/i` flag of the fence
regexes). -/
def strToLower (s : String) : String :=
  (s.toList.map Char.toLower).asString

/-- `String.prototype.startsWith`, computed over character lists. -/
def strStartsWith (s p : String) : Bool :=
  s.toList.take p.toList.length == p.toList

/-- Does `s` end with `p`, computed over character lists (the anchored
`$`-regex of the trailing-fence strip). -/
def strEndsWith (s p : String) : Bool :=
  s.toList.reverse.take p.toList.length == p.toList.reverse

/-- Drop leading whitespace (the `\s*` after a leading fence). -/
def strDropLeadingWs (s : String) : String :=
  (s.toList.dropWhile Char.isWhitespace).asString

/-- The nested path `resp?.candidates?.[0]?.content?.parts?.[0]?.text` at
which every Gemini success response exposes its generated text. -/
def geminiText (data : Json) : Option Json :=
  optField
    (optIndex
      (optField
        (optField (optIndex (optField (some data) "candidates") 0) "content")
        "parts")
      0)
    "text"

/-- Shared body of the optional-chaining Gemini extractions
(`if (!data?.candidates?.[0]?.content?.parts?.[0]?.text) throw invalidMsg`
followed by `text.trim()`).  A truthy non-string at the path survives the
check but then fails on `.trim()`, which the sources surface as a TypeError
with message `notFnMsg`. -/
def geminiTrimmedText (data : Json) (invalidMsg notFnMsg : String) :
    Except String String :=
  match geminiText data with
  | some (.str s) => if s = "" then .error invalidMsg else .ok (jsTrim s)
  | some j => if j.truthy then .error notFnMsg else .error invalidMsg
  | none => .error invalidMsg

/-- The explicit response-structure check of the Covalent and Dune variants:
`!data.candidates || data.candidates.length === 0 ||
 !data.candidates[0].content || !data.candidates[0].content.parts ||
 data.candidates[0].content.parts.length === 0`, throwing `invalidMsg` when
it trips, and otherwise yielding `data.candidates[0].content.parts[0].text`
(possibly `undefined`).  Property reads on `undefined` receivers raise the
corresponding TypeErrors, exactly as in JS. -/
def covExtractText (data : Json) (invalidMsg : String) :
    Except String (Option Json) := do
  let cand ← jsGetMember (some data) "candidates"
  if !jsTruthy cand || jsLengthIsZero cand then throw invalidMsg
  let cand0 ← jsGetIndex cand 0
  let content ← jsGetMember cand0 "content"
  if !jsTruthy content then throw invalidMsg
  let parts ← jsGetMember content "parts"
  if !jsTruthy parts || jsLengthIsZero parts then throw invalidMsg
  let parts0 ← jsGetIndex parts 0
  jsGetMember parts0 "text"

/-- Strip a leading markdown fence `^\x60\x60\x60<tag>\s*` (case-insensitive
on the tag, as in `replace(/^\x60\x60\x60sql\s*.../i, ...)`). -/
def stripLeadingFence (tag : String) (s : String) : String :=
  if s.take 3 = "```" && strToLower ((s.drop 3).take tag.length) = tag
      && 3 + tag.length ≤ s.length then
    strDropLeadingWs (s.drop (3 + tag.length))
  else s

/-- Strip a trailing markdown fence (`replace(/\x60\x60\x60$/, ...)`; without
the `m` flag, `$` matches only at the very end of the string). -/
def stripTrailingFence (s : String) : String :=
  if strEndsWith s "```" then s.dropRight 3 else s

/-- The cleanup the NL-to-SQL stages apply to the raw generated text:
trim, strip a leading ```sql fence, strip a trailing fence, trim again. -/
def cleanGeneratedSql (t : String) : String :=
  jsTrim (stripTrailingFence (stripLeadingFence "sql" (jsTrim t)))

/-- The Mobula variant fallback cleanup
`replace(/\x60\x60\x60json\n([\s\S]*)\n\x60\x60\x60/g, "$1")`: greedy, so it
removes the first `\x60\x60\x60json\n` marker together with the last
`\n\x60\x60\x60` marker after it, provided both exist. -/
def stripJsonBlock (s : String) : String :=
  match s.splitOn "```json\n" with
  | [] => s
  | [_] => s
  | pre :: rest =>
    let tail := String.intercalate "```json\n" rest
    match tail.splitOn "\n```" with
    | [] => s
    | [_] => s
    | parts =>
      pre ++ String.intercalate "\n```" parts.dropLast ++ parts.getLast!

/-- An inbound Netlify event.  `body` is the outcome of `JSON.parse` on the
raw request body: `none` when parsing throws, `some j` when it yields `j`. -/
structure HttpEvent where
  httpMethod : String
  body : Option Json

/-- An HTTP response of the handler.  `jsonHeader` records whether the
`Content-Type: application/json` header object was attached (the 405 branch
returns no headers). -/
structure HttpResponse where
  statusCode : Nat
  jsonHeader : Bool
  body : String
deriving DecidableEq

/-- Outcome of the shared inbound-body validation of every handler variant. -/
inductive ParseOutcome where
  | badJson
  | badQuestion
  | okQuestion (q : String)
deriving DecidableEq

/-- The shared validation block of every handler: `JSON.parse(event.body)`
followed by `body.question` and
`!question || typeof question !== "string" || question.trim() === ""`.
A `null` parsed body makes `body.question` throw a TypeError that the same
`catch` converts into the invalid-JSON 400, hence `badJson`. -/
def parseQuestion (body : Option Json) : ParseOutcome :=
  match body with
  | none => .badJson
  | some .null => .badJson
  | some (.obj fs) =>
      match fs.lookup "question" with
      | some (.str s) => if jsTrim s = "" then .badQuestion else .okQuestion s
      | _ => .badQuestion
  | some _ => .badQuestion

/-- The plain-text 405 response for non-POST methods. -/
def methodNotAllowedResponse : HttpResponse :=
  ⟨405, false, "Method Not Allowed"⟩

/-- The 400 response for an unparseable JSON body. -/
def invalidJsonResponse : HttpResponse :=
  ⟨400, true, Json.serialize (.obj [("error", .str "Invalid JSON request body.")])⟩

/-- The 400 response for a missing/blank/non-string `question`. -/
def invalidQuestionResponse : HttpResponse :=
  ⟨400, true,
    Json.serialize
      (.obj [("error", .str "Invalid or missing \x27question\x27 in request body.")])⟩

/-- A JSON response with the given status and an `insight` field. -/
def insightResponse (status : Nat) (insight : String) : HttpResponse :=
  ⟨status, true, Json.serialize (.obj [("insight", .str insight)])⟩

/-- One call to an external collaborator, recorded in order in a trace. -/
inductive ExtCall where
  | geminiGenerate
  | geminiMapping
  | flipsideSubmit
  | flipsidePoll
  | flipsideResults
  | mobulaApi
  | covalentApi
  | geminiSummarize
deriving DecidableEq

/-! ## Flipside V2 JSON-RPC variant (`unnamed/part_000`, second document) -/

/-- Milliseconds between status polls. -/
def FLIPSIDE_EXECUTION_POLL_INTERVAL : Nat := 3000

/-- Wall-clock polling ceiling in milliseconds (2 minutes). -/
def FLIPSIDE_EXECUTION_MAX_WAIT_TIME : Nat := 120000

/-- Result page size of `getQueryRunResults` (affects only the request
payload, which the result oracle abstracts). -/
def FLIPSIDE_RESULTS_PAGE_SIZE : Nat := 1000

/-- Environment of one Flipside V2 request: the parsed JSON bodies the
external services answer with (`Except.error` models a throw from
`fetchApi`, which covers non-2xx statuses, transport failures and JSON-RPC
`error` members), and the wall clock observed by the polling loop.
`elapsed k` is `Date.now() - startTime` at the timeout check of iteration
`k`; successive iterations are separated by the poll call plus the
`setTimeout(POLL_INTERVAL)` sleep, so the elapsed time grows by at least the
poll interval per iteration. -/
structure FlipsideEnv where
  geminiSqlResp : Except String Json
  submitResp : Except String Json
  statusResp : Nat → Except String Json
  resultsResp : Except String Json
  geminiSumResp : Except String Json
  elapsed : Nat → Nat
  elapsed_step :
    ∀ k, elapsed k + FLIPSIDE_EXECUTION_POLL_INTERVAL ≤ elapsed (k + 1)

/-- `convertNLtoSQL` of the Flipside V2 variant: extract the generated text
(optional-chaining structure check), strip markdown fences, and reject the
sentinel / too-short outputs.  The prompt construction has no effect on
control flow and is absorbed by the response oracle. -/
def convertNLtoSQL (resp : Except String Json) : Except String String :=
  match resp with
  | .error e => .error e
  | .ok data =>
    match geminiText data with
    | some (.str t) =>
      if t = "" then
        .error "Received invalid response structure from Gemini (NL to SQL)."
      else
        let sqlQuery := cleanGeneratedSql t
        if strStartsWith sqlQuery "ERROR:" || sqlQuery.length < 5 then
          .error "Gemini could not formulate a SQL query for the question."
        else .ok sqlQuery
    | some j =>
      if j.truthy then
        .error "data.candidates[0].content.parts[0].text.trim is not a function"
      else
        .error "Received invalid response structure from Gemini (NL to SQL)."
    | none => .error "Received invalid response structure from Gemini (NL to SQL)."

/-- `submitFlipsideQuery`: extract `data.result.queryRun.queryRunId` (a
TypeError along the chain is caught and re-thrown with the extraction
message) and insist on a non-empty string handle. -/
def submitFlipsideQuery (resp : Except String Json) : Except String String :=
  match resp with
  | .error e => .error e
  | .ok data =>
    match (do
        let r ← jsGetMember (some data) "result"
        let qr ← jsGetMember r "queryRun"
        jsGetMember qr "queryRunId" : Except String (Option Json)) with
    | .error em =>
        .error ("Failed to submit query to Flipside: Could not extract queryRunId from response. Details: "
          ++ em)
    | .ok qid =>
      match qid with
      | some (.str s) =>
        if s.length > 0 then .ok s
        else .error "Failed to submit query to Flipside: Invalid or empty queryRunId received."
      | _ => .error "Failed to submit query to Flipside: Invalid or empty queryRunId received."

/-- `getFlipsideQueryStatus`: the status value at `data?.result?.status`,
rejected when falsy/absent. -/
def getFlipsideQueryStatus (resp : Except String Json) : Except String Json :=
  match resp with
  | .error e => .error e
  | .ok data =>
    match optField (optField (some data) "result") "status" with
    | some st =>
        if st.truthy then .ok st
        else .error "Failed to get query status from Flipside: Invalid response structure."
    | none => .error "Failed to get query status from Flipside: Invalid response structure."

/-- The message of the `ExecutionTimeout` throw of the Flipside V2 wait loop
(`FLIPSIDE_EXECUTION_MAX_WAIT_TIME / 1000` is 120). -/
def flipsideTimeoutMsg : String :=
  "Flipside query execution timed out after "
    ++ toString (FLIPSIDE_EXECUTION_MAX_WAIT_TIME / 1000) ++ " seconds."

/-- The wrapping the `catch` inside the wait loop applies to anything thrown
by the poll or the status dispatch. -/
def pollWrap (queryRunId e : String) : String :=
  "Polling error for Flipside execution " ++ queryRunId ++ ": " ++ e

/-- `waitForFlipsideExecution` from iteration `k` of its `while (true)`
loop, returning the loop outcome together with the number of status polls it
performs from that iteration on.  Each iteration first compares the elapsed
wall clock against the ceiling (a timeout throw escapes the loop unwrapped,
since it sits outside the `try`), then polls; terminal failures and
unrecognized statuses thrown inside the `try` are wrapped by the `catch`
before escaping. -/
def waitForFlipsideExecution (env : FlipsideEnv) (queryRunId : String)
    (k : Nat) : Except String Bool × Nat :=
  if h : FLIPSIDE_EXECUTION_MAX_WAIT_TIME < env.elapsed k then
    (.error flipsideTimeoutMsg, 0)
  else
    match getFlipsideQueryStatus (env.statusResp k) with
    | .error e => (.error (pollWrap queryRunId e), 1)
    | .ok status =>
      if status.isStr "COMPLETED" then
        (.ok true, 1)
      else if status.isStr "FAILED" then
        (.error (pollWrap queryRunId "Flipside query execution failed."), 1)
      else if status.isStr "CANCELLED" then
        (.error (pollWrap queryRunId "Flipside query execution was cancelled."), 1)
      else if status.isStr "RUNNING" || status.isStr "PENDING"
          || status.isStr "CANCELLING" then
        let r := waitForFlipsideExecution env queryRunId (k + 1)
        (r.1, r.2 + 1)
      else
        (.error (pollWrap queryRunId
          ("Encountered unknown Flipside execution status: " ++ status.jsToString)), 1)
termination_by FLIPSIDE_EXECUTION_MAX_WAIT_TIME + 1 - env.elapsed k
decreasing_by
  have hs := env.elapsed_step k
  simp only [not_lt] at h
  simp only [FLIPSIDE_EXECUTION_POLL_INTERVAL, FLIPSIDE_EXECUTION_MAX_WAIT_TIME] at *
  omega

/-- The canonical ResultSet object `{ columnNames, rows }` the Flipside V2
executor hands to the summarizer. -/
def mkResultSet (cols : List String) (rows : List Json) : Json :=
  Json.obj [("columnNames", Json.arr (cols.map Json.str)), ("rows", Json.arr rows)]

/-- The `columnNames`-missing branch of `getFlipsideQueryResults`:
`if (data.result.rows.length > 0)` infer `Object.keys(data.result.rows[0])`,
else return the empty ResultSet.  Arrays and strings report their length and
index to their first element/character; a plain object only passes the
`length > 0` comparison when it carries a positive numeric `length` field,
in which case `rows[0]` is its `"0"` field and `Object.keys` throws on a
nullish first row (beyond numbers, JS would also numerically coerce
string/boolean `length` fields; no value of that shape reaches this
branch).  Numbers and booleans have no `length`, so the comparison is false
and the empty ResultSet is returned. -/
def flipsideInferColumns (rowsOpt : Option Json) : Except String Json :=
  match rowsOpt with
  | some (.arr (r0 :: rest)) =>
    match r0 with
    | .null => .error "Cannot convert undefined or null to object"
    | _ =>
      .ok (Json.obj [("columnNames", Json.arr ((jsKeys r0).map Json.str)),
        ("rows", Json.arr (r0 :: rest))])
  | some (.str s) =>
    if s.length > 0 then
      .ok (Json.obj [("columnNames",
        Json.arr ((jsKeys (Json.str (String.singleton (s.toList.headD ' ')))).map Json.str)),
        ("rows", Json.str s)])
    else .ok (mkResultSet [] [])
  | some (.obj fs) =>
    match fs.lookup "length" with
    | some (.num n) =>
      if n > 0 then
        match fs.lookup "0" with
        | none => .error "Cannot convert undefined or null to object"
        | some .null => .error "Cannot convert undefined or null to object"
        | some r0 =>
          .ok (Json.obj [("columnNames", Json.arr ((jsKeys r0).map Json.str)),
            ("rows", Json.obj fs)])
      else .ok (mkResultSet [] [])
    | _ => .ok (mkResultSet [] [])
  | _ => .ok (mkResultSet [] [])

/-- `getFlipsideQueryResults`: read `data?.result?.rows` (degrading to an
empty ResultSet when absent/falsy) and `data?.result?.columnNames`
(inferring the column names via `Object.keys` of the first row when absent,
where `Object.keys(null)` throws). -/
def getFlipsideQueryResults (resp : Except String Json) : Except String Json :=
  match resp with
  | .error e => .error e
  | .ok data =>
    let res := optField (some data) "result"
    match optField res "rows" with
    | rowsOpt =>
      if !jsTruthy rowsOpt then .ok (mkResultSet [] [])
      else
        match optField res "columnNames" with
        | some cols =>
          if cols.truthy then
            .ok (Json.obj [("columnNames", cols),
              ("rows", rowsOpt.getD Json.null)])
          else flipsideInferColumns rowsOpt
        | none => flipsideInferColumns rowsOpt

/-- Serialized-payload ceiling before the summarization prompt. -/
def MAX_DATA_LENGTH : Nat := 5000

/-- The sampling step of `summarizeFlipsideData`: serialize the ResultSet;
when the serialization exceeds the ceiling and `rows` is an array, keep the
column names and the first `min(length, 50)` whole row objects (a field
holding `undefined` is omitted, as `JSON.stringify` would); a non-array
oversized payload falls back to a truncated string.  Under the ceiling the
input is passed through unchanged.  (`flipsideData` can never be `null`
here, since `null` serializes to 4 characters.) -/
def sampleFlipsideData (flipsideData : Json) : Json ⊕ String :=
  let jsonData := Json.serialize flipsideData
  if jsonData.length > MAX_DATA_LENGTH then
    match optField (some flipsideData) "rows" with
    | some (.arr rows) =>
      Sum.inl (Json.obj
        ((match optField (some flipsideData) "columnNames" with
          | some c => [("columnNames", c)]
          | none => []) ++
         [("rows", Json.arr (rows.take (min rows.length 50)))]))
    | _ => Sum.inr (jsonData.take MAX_DATA_LENGTH ++ "...")
  else Sum.inl flipsideData

/-- The empty-data bypass check of `summarizeFlipsideData`:
`!dataToSend || (Array.isArray(dataToSend.rows) && dataToSend.rows.length === 0)`. -/
def flipsideEmptyBypass : Json ⊕ String → Bool
  | .inl j => !j.truthy || (match optField (some j) "rows" with
      | some (.arr rows) => rows.isEmpty
      | _ => false)
  | .inr s => s.length == 0

/-- The fixed no-data message of the Flipside V2 summarizer. -/
def flipsideNoDataMsg : String :=
  "The query ran successfully on Flipside but returned no data."

/-- `summarizeFlipsideData`: sample, bypass the model call on empty data
with the fixed message, otherwise invoke Gemini and extract the trimmed
insight text.  The boolean records whether the Gemini call was issued. -/
def summarizeFlipsideData (flipsideData : Json)
    (sumResp : Except String Json) : Except String String × Bool :=
  let dataToSend := sampleFlipsideData flipsideData
  if flipsideEmptyBypass dataToSend then (.ok flipsideNoDataMsg, false)
  else
    match sumResp with
    | .error e => (.error e, true)
    | .ok result =>
      (geminiTrimmedText result
        "Received invalid response structure from Gemini during summarization."
        "result.candidates[0].content.parts[0].text.trim is not a function", true)

/-- The `try` block of the Flipside V2 handler: NL→SQL, submit, wait, fetch
results, summarize, each feeding the next and each recording its external
calls in order. -/
def runFlipsidePipeline (env : FlipsideEnv) : Except String String × List ExtCall :=
  match convertNLtoSQL env.geminiSqlResp with
  | .error e => (.error e, [ExtCall.geminiGenerate])
  | .ok _sqlQuery =>
    match submitFlipsideQuery env.submitResp with
    | .error e => (.error e, [ExtCall.geminiGenerate, ExtCall.flipsideSubmit])
    | .ok queryRunId =>
      match waitForFlipsideExecution env queryRunId 0 with
      | (.error e, n) =>
        (.error e, [ExtCall.geminiGenerate, ExtCall.flipsideSubmit]
          ++ List.replicate n ExtCall.flipsidePoll)
      | (.ok _, n) =>
        match getFlipsideQueryResults env.resultsResp with
        | .error e =>
          (.error e, [ExtCall.geminiGenerate, ExtCall.flipsideSubmit]
            ++ List.replicate n ExtCall.flipsidePoll ++ [ExtCall.flipsideResults])
        | .ok flipsideData =>
          match summarizeFlipsideData flipsideData env.geminiSumResp with
          | (r, called) =>
            (r, [ExtCall.geminiGenerate, ExtCall.flipsideSubmit]
              ++ List.replicate n ExtCall.flipsidePoll ++ [ExtCall.flipsideResults]
              ++ (if called then [ExtCall.geminiSummarize] else []))

/-- The Flipside V2 handler `exports.handler`: 405 on non-POST, 400 on body
validation failure (both before any external call), otherwise run the
pipeline, turning success into a 200 `insight` response and any stage throw
into a 500 response whose `insight` is the product tag followed by the
error message. -/
def flipsideHandler (env : FlipsideEnv) (event : HttpEvent) :
    HttpResponse × List ExtCall :=
  if event.httpMethod ≠ "POST" then (methodNotAllowedResponse, [])
  else
    match parseQuestion event.body with
    | .badJson => (invalidJsonResponse, [])
    | .badQuestion => (invalidQuestionResponse, [])
    | .okQuestion _q =>
      match runFlipsidePipeline env with
      | (.ok insight, tr) => (insightResponse 200 insight, tr)
      | (.error m, tr) => (insightResponse 500 ("ChainSage Error: " ++ m), tr)

/-! ## Mobula variant (`chainsage-proxy.js`, first document) -/

/-- Environment of one Mobula request: the parsed bodies answered by Gemini
(endpoint selection and summarization) and the Mobula API, plus the
`JSON.parse` primitive applied to the generated text (`none` models a parse
throw). -/
structure MobulaEnv where
  geminiEndpointResp : Except String Json
  jparse : String → Option Json
  mobulaResp : Except String Json
  geminiSumResp : Except String Json

/-- `getModulaEndpointAndParams`: extract the generated text
(optional-chaining check), `JSON.parse` it, retrying once after stripping a
```json fence, and fail if neither parse succeeds.  A truthy non-string at
the text path makes both `.trim()` calls throw, the second escaping the
`catch`. -/
def getModulaEndpointAndParams (resp : Except String Json)
    (jparse : String → Option Json) : Except String Json :=
  match resp with
  | .error e => .error e
  | .ok data =>
    match geminiText data with
    | some (.str t) =>
      if t = "" then
        .error "Received invalid response structure from Gemini (NL to Endpoint)."
      else
        match jparse (jsTrim t) with
        | some r => .ok r
        | none =>
          match jparse (stripJsonBlock (jsTrim t)) with
          | some r => .ok r
          | none => .error "Gemini output was not valid JSON."
    | some j =>
      if j.truthy then
        .error "data.candidates[0].content.parts[0].text.trim is not a function"
      else
        .error "Received invalid response structure from Gemini (NL to Endpoint)."
    | none =>
      .error "Received invalid response structure from Gemini (NL to Endpoint)."

/-- The argument evaluation of
`callModulaApi(endpointData.endpoints[0], endpointData.endpoints[0].extracted_parameters)`:
the member/index accesses can throw before any HTTP request is made.  The
values themselves only shape the request URL, which the response oracle
absorbs. -/
def mobulaPreCall (endpointData : Json) : Except String Unit := do
  let eps ← jsGetMember (some endpointData) "endpoints"
  let ep0 ← jsGetIndex eps 0
  let _params ← jsGetMember ep0 "extracted_parameters"
  pure ()

/-- `summarizeModulaData`: build the summarization prompt from the raw
Mobula payload (no sampling and no empty-data bypass exist in this variant),
invoke Gemini, and extract the trimmed insight.  The boolean records that
the Gemini call is always issued. -/
def summarizeModulaData (_modulaData : Json)
    (sumResp : Except String Json) : Except String String × Bool :=
  match sumResp with
  | .error e => (.error e, true)
  | .ok result =>
    (geminiTrimmedText result
      "Received invalid response structure from Gemini during summarization."
      "result.candidates[0].content.parts[0].text.trim is not a function", true)

/-- Outcome of the Mobula `try` block: either the early informational return
taken when `can_query` is falsy (carrying `endpointData.message`, possibly
`undefined`), or the summarized insight. -/
inductive MobulaOutcome where
  | cannotQuery (message : Option Json)
  | summarized (insight : String)

/-- The `try` block of the Mobula handler: endpoint selection, the
`can_query` early return, the Mobula API call, and summarization, recording
external calls in order. -/
def runMobulaPipeline (env : MobulaEnv) :
    Except String MobulaOutcome × List ExtCall :=
  match getModulaEndpointAndParams env.geminiEndpointResp env.jparse with
  | .error e => (.error e, [ExtCall.geminiGenerate])
  | .ok endpointData =>
    match jsGetMember (some endpointData) "can_query" with
    | .error em => (.error em, [ExtCall.geminiGenerate])
    | .ok cq =>
      if !jsTruthy cq then
        (.ok (.cannotQuery (optField (some endpointData) "message")),
          [ExtCall.geminiGenerate])
      else
        match mobulaPreCall endpointData with
        | .error em => (.error em, [ExtCall.geminiGenerate])
        | .ok _ =>
          match env.mobulaResp with
          | .error e => (.error e, [ExtCall.geminiGenerate, ExtCall.mobulaApi])
          | .ok modulaResponse =>
            match summarizeModulaData modulaResponse env.geminiSumResp with
            | (r, _) =>
              (r.map MobulaOutcome.summarized,
                [ExtCall.geminiGenerate, ExtCall.mobulaApi, ExtCall.geminiSummarize])

/-- `JSON.stringify({ insight: v })` where `v` may be `undefined` (a field
holding `undefined` is omitted by `JSON.stringify`). -/
def stringifyInsightField (v : Option Json) : String :=
  match v with
  | none => Json.serialize (.obj [])
  | some j => Json.serialize (.obj [("insight", j)])

/-- The Mobula handler `exports.handler`: 405 on non-POST, 400 on body
validation failure (both before any external call); a falsy `can_query`
yields a 200 carrying the model message in the `insight` field; success
yields 200 with the summarized insight; any throw inside the `try` yields a
500 whose `insight` is the product tag followed by the error message. -/
def mobulaHandler (env : MobulaEnv) (event : HttpEvent) :
    HttpResponse × List ExtCall :=
  if event.httpMethod ≠ "POST" then (methodNotAllowedResponse, [])
  else
    match parseQuestion event.body with
    | .badJson => (invalidJsonResponse, [])
    | .badQuestion => (invalidQuestionResponse, [])
    | .okQuestion _q =>
      match runMobulaPipeline env with
      | (.ok (.cannotQuery msg), tr) => (⟨200, true, stringifyInsightField msg⟩, tr)
      | (.ok (.summarized insight), tr) => (insightResponse 200 insight, tr)
      | (.error m, tr) => (insightResponse 500 ("ChainSage Error: " ++ m), tr)

/-! ## Covalent variant (`chainsage-proxy.js`, second document) -/

/-- Environment of one Covalent request: parsed responses of the two Gemini
calls (SQL generation, SQL-to-endpoint mapping), the `JSON.parse` primitive
for the mapping text, the Covalent response, and the summarization
response. -/
structure CovalentEnv where
  geminiSqlResp : Except String Json
  geminiMapResp : Except String Json
  jparse : String → Option Json
  covalentResp : Except String Json
  geminiSumResp : Except String Json

/-- `convertNLtoSQL` of the Covalent variant: explicit response-structure
check, then `text.trim()` (whose TypeErrors on a missing or non-string text
escape uncaught), fence stripping, and the sentinel / too-short rejection. -/
def convertNLtoSQLCovalent (resp : Except String Json) : Except String String :=
  match resp with
  | .error e => .error e
  | .ok data =>
    match covExtractText data
        "Received invalid response structure from Gemini (NL to SQL)." with
    | .error e => .error e
    | .ok (some (.str t)) =>
      let sqlQuery := cleanGeneratedSql t
      if strStartsWith sqlQuery "ERROR:" || sqlQuery.length < 5 then
        .error "Gemini could not formulate a SQL query for the question."
      else .ok sqlQuery
    | .ok (some .null) => .error "Cannot read properties of null (reading \x27trim\x27)"
    | .ok (some _) =>
      .error "data.candidates[0].content.parts[0].text.trim is not a function"
    | .ok none => .error "Cannot read properties of undefined (reading \x27trim\x27)"

/-- The wrapped message the single `catch` of `mapSQLtoCovalentApi` rethrows
for every failure inside its `try` (parse failure, `mapping.error`, or an
invalid mapping structure — the specific inner messages are swallowed). -/
def covalentMappingFailMsg (jsonString : String) : String :=
  "Failed to interpret Covalent API mapping from Gemini. Response: "
    ++ jsonString.take 200 ++ "..."

/-- `mapSQLtoCovalentApi`: explicit structure check, fence stripping,
`JSON.parse`, then the in-`try` validation of the mapping object — any of
whose failures the `catch` converts into the single wrapped message. -/
def mapSQLtoCovalentApi (resp : Except String Json)
    (jparse : String → Option Json) : Except String Json :=
  match resp with
  | .error e => .error e
  | .ok data =>
    match covExtractText data
        "Received invalid response structure from Gemini (SQL to Covalent Mapping)." with
    | .error e => .error e
    | .ok (some (.str t)) =>
      let jsonString := jsTrim (stripTrailingFence (stripLeadingFence "json" (jsTrim t)))
      match jparse jsonString with
      | none => .error (covalentMappingFailMsg jsonString)
      | some mapping =>
        match mapping with
        | .null => .error (covalentMappingFailMsg jsonString)
        | _ =>
          if jsTruthy (optField (some mapping) "error") then
            .error (covalentMappingFailMsg jsonString)
          else if !jsTruthy (optField (some mapping) "endpoint")
              || !jsTruthy (optField (some mapping) "method")
              || !jsTruthy (optField (some mapping) "parameters") then
            .error (covalentMappingFailMsg jsonString)
          else .ok mapping
    | .ok (some .null) => .error "Cannot read properties of null (reading \x27trim\x27)"
    | .ok (some _) =>
      .error "data.candidates[0].content.parts[0].text.trim is not a function"
    | .ok none => .error "Cannot read properties of undefined (reading \x27trim\x27)"

/-- The informational insight built when the mapping marks required
parameters as missing; the flags are read in the order address, contract,
token ID and joined with " and ". -/
def covMissingMsg (ra rc rt : Bool) : String :=
  "The Oracle needs more information to answer that question. Please provide "
    ++ String.intercalate " and "
      ((if ra then ["a wallet address"] else [])
        ++ (if rc then ["a contract address"] else [])
        ++ (if rt then ["a token ID"] else []))
    ++ "."

/-- `executeCovalentApiCall`: call Covalent (URL construction absorbed by
the oracle) and unwrap the common `data` envelope when present, returning
the raw response otherwise. -/
def executeCovalentApiCall (resp : Except String Json) : Except String Json :=
  match resp with
  | .error e => .error e
  | .ok data =>
    if data.truthy then
      match optField (some data) "data" with
      | some d => if d.truthy then .ok d else .ok data
      | none => .ok data
    else .ok data

/-- Overwrite the value of an existing field, as an object spread
`{ ...base, k: v }` does when `k` is already present (the only call site
guarantees presence). -/
def Json.setField : Json → String → Json → Json
  | .obj fs, k, v => .obj (fs.map fun f => if f.1 = k then (k, v) else f)
  | j, _, _ => j

/-- The sampling step of `summarizeCovalentData`: over the ceiling, truncate
the `items` array to the first `min(length, 50)` entries inside a spread
copy; non-`items` payloads fall back to a truncated string. -/
def sampleCovalentData (covalentData : Json) : Json ⊕ String :=
  let jsonData := Json.serialize covalentData
  if jsonData.length > MAX_DATA_LENGTH then
    match optField (some covalentData) "items" with
    | some (.arr items) =>
      Sum.inl (covalentData.setField "items"
        (Json.arr (items.take (min items.length 50))))
    | _ => Sum.inr (jsonData.take MAX_DATA_LENGTH ++ "...")
  else Sum.inl covalentData

/-- The empty-data bypass check of `summarizeCovalentData`:
`!dataToSend || (Array.isArray(dataToSend.items) && dataToSend.items.length === 0)`. -/
def covalentEmptyBypass : Json ⊕ String → Bool
  | .inl j => !j.truthy || (match optField (some j) "items" with
      | some (.arr items) => items.isEmpty
      | _ => false)
  | .inr s => s.length == 0

/-- The fixed no-data message of the Covalent summarizer. -/
def covalentNoDataMsg : String :=
  "The query ran successfully but returned no data from Covalent."

/-- `summarizeCovalentData`: sample, bypass the model call on an empty
`items` array, otherwise invoke Gemini (explicit structure check, then
`text.trim()`).  The boolean records whether the Gemini call was issued. -/
def summarizeCovalentData (covalentData : Json)
    (sumResp : Except String Json) : Except String String × Bool :=
  let dataToSend := sampleCovalentData covalentData
  if covalentEmptyBypass dataToSend then (.ok covalentNoDataMsg, false)
  else
    match sumResp with
    | .error e => (.error e, true)
    | .ok result =>
      match covExtractText result
          "Received invalid response structure from Gemini during summarization." with
      | .error e => (.error e, true)
      | .ok (some (.str s)) => (.ok (jsTrim s), true)
      | .ok (some .null) =>
        (.error "Cannot read properties of null (reading \x27trim\x27)", true)
      | .ok (some _) =>
        (.error "result.candidates[0].content.parts[0].text.trim is not a function", true)
      | .ok none =>
        (.error "Cannot read properties of undefined (reading \x27trim\x27)", true)

/-- Outcome of the Covalent `try` block: the missing-parameters
informational insight or the summarized insight (both answered with 200). -/
inductive CovalentOutcome where
  | needsInfo (insight : String)
  | summarized (insight : String)

/-- The `try` block of the Covalent handler: NL→SQL, SQL→endpoint mapping,
the missing-parameter branch, the Covalent call and summarization,
recording external calls in order. -/
def runCovalentPipeline (env : CovalentEnv) :
    Except String CovalentOutcome × List ExtCall :=
  match convertNLtoSQLCovalent env.geminiSqlResp with
  | .error e => (.error e, [ExtCall.geminiGenerate])
  | .ok _sqlQuery =>
    match mapSQLtoCovalentApi env.geminiMapResp env.jparse with
    | .error e => (.error e, [ExtCall.geminiGenerate, ExtCall.geminiMapping])
    | .ok covalentMapping =>
      let ra := jsTruthy (optField (some covalentMapping) "requires_address")
      let rc := jsTruthy (optField (some covalentMapping) "requires_contract")
      let rt := jsTruthy (optField (some covalentMapping) "requires_token_id")
      if ra || rc || rt then
        (.ok (.needsInfo (covMissingMsg ra rc rt)),
          [ExtCall.geminiGenerate, ExtCall.geminiMapping])
      else
        match executeCovalentApiCall env.covalentResp with
        | .error e =>
          (.error e, [ExtCall.geminiGenerate, ExtCall.geminiMapping, ExtCall.covalentApi])
        | .ok covalentData =>
          match summarizeCovalentData covalentData env.geminiSumResp with
          | (r, called) =>
            (r.map CovalentOutcome.summarized,
              [ExtCall.geminiGenerate, ExtCall.geminiMapping, ExtCall.covalentApi]
                ++ (if called then [ExtCall.geminiSummarize] else []))

/-- The Covalent handler `exports.handler`: 405 / 400 validation as in the
other variants; both pipeline outcomes answer 200 with an `insight`; any
throw inside the `try` yields the 500 product-tagged error insight. -/
def covalentHandler (env : CovalentEnv) (event : HttpEvent) :
    HttpResponse × List ExtCall :=
  if event.httpMethod ≠ "POST" then (methodNotAllowedResponse, [])
  else
    match parseQuestion event.body with
    | .badJson => (invalidJsonResponse, [])
    | .badQuestion => (invalidQuestionResponse, [])
    | .okQuestion _q =>
      match runCovalentPipeline env with
      | (.ok (.needsInfo insight), tr) => (insightResponse 200 insight, tr)
      | (.ok (.summarized insight), tr) => (insightResponse 200 insight, tr)
      | (.error m, tr) => (insightResponse 500 ("ChainSage Error: " ++ m), tr)

/-! ## Dune variant (`unnamed/part_002`) -/

/-- `summarizeData` of the Dune variant.  The rows array is sampled to its
first 50 rows over the ceiling, an empty array short-circuits with the fixed
no-data message, and — unlike every other stage — the `try` wraps the whole
Gemini interaction, so any failure there is converted into a *successful*
return of an apologetic message rather than a rethrow: this stage never
throws.  The boolean records whether the Gemini call was issued. -/
def summarizeData (data : List Json) (sumResp : Except String Json) :
    String × Bool :=
  let jsonData := Json.serialize (Json.arr data)
  let dataToSend := if jsonData.length > MAX_DATA_LENGTH then
    data.take (min data.length 50) else data
  if dataToSend.length = 0 then
    ("The query ran successfully but returned no data.", false)
  else
    match sumResp with
    | .error e => ("Unable to generate insights at this time. Error: " ++ e, true)
    | .ok result =>
      match covExtractText result
          "Received invalid response structure from Gemini during summarization." with
      | .error e => ("Unable to generate insights at this time. Error: " ++ e, true)
      | .ok (some (.str s)) => (jsTrim s, true)
      | .ok (some .null) =>
        ("Unable to generate insights at this time. Error: Cannot read properties of null (reading \x27trim\x27)", true)
      | .ok (some _) =>
        ("Unable to generate insights at this time. Error: result.candidates[0].content.parts[0].text.trim is not a function", true)
      | .ok none =>
        ("Unable to generate insights at this time. Error: Cannot read properties of undefined (reading \x27trim\x27)", true)

/-! ## Flipside ShroomDK variant (`unnamed/part_000`, third document) -/

/-- The sampling step of the ShroomDK `summarizeFlipsideData`: the payload
is the bare results array; over the ceiling it is truncated to its first
`min(length, 50)` entries, with the truncated-string fallback for non-array
payloads. -/
def sampleShroomData (flipsideData : Json) : Json ⊕ String :=
  let jsonData := Json.serialize flipsideData
  if jsonData.length > MAX_DATA_LENGTH then
    match flipsideData with
    | .arr xs => Sum.inl (Json.arr (xs.take (min xs.length 50)))
    | _ => Sum.inr (jsonData.take MAX_DATA_LENGTH ++ "...")
  else Sum.inl flipsideData

/-- The empty-data bypass check of the ShroomDK summarizer:
`!dataToSend || (Array.isArray(dataToSend) && dataToSend.length === 0)`. -/
def shroomEmptyBypass : Json ⊕ String → Bool
  | .inl j => !j.truthy || (match j with
      | .arr xs => xs.isEmpty
      | _ => false)
  | .inr s => s.length == 0

/-- The response-structure check of the ShroomDK summarizer followed by the
insight extraction.  The check misspells the path: it reads
`result[0].content` where every other variant reads
`result.candidates[0].content`, so on any response whose top-level object
lacks a `"0"` field — in particular every well-shaped Gemini response — the
read throws a TypeError before the (correctly pathed) extraction below is
reached. -/
def shroomExtract (result : Json) : Except String String := do
  let cand ← jsGetMember (some result) "candidates"
  if !jsTruthy cand || jsLengthIsZero cand then
    throw "Received invalid response structure from Gemini during summarization."
  let r0 ← jsGetIndex (some result) 0
  let content ← jsGetMember r0 "content"
  if !jsTruthy content then
    throw "Received invalid response structure from Gemini during summarization."
  let parts ← jsGetMember content "parts"
  if !jsTruthy parts || jsLengthIsZero parts then
    throw "Received invalid response structure from Gemini during summarization."
  let cand0 ← jsGetIndex cand 0
  let ccontent ← jsGetMember cand0 "content"
  let cparts ← jsGetMember ccontent "parts"
  let cparts0 ← jsGetIndex cparts 0
  let text ← jsGetMember cparts0 "text"
  match text with
  | some (.str s) => pure (jsTrim s)
  | some .null => throw "Cannot read properties of null (reading \x27trim\x27)"
  | some _ => throw "result.candidates[0].content.parts[0].text.trim is not a function"
  | none => throw "Cannot read properties of undefined (reading \x27trim\x27)"

/-- `summarizeFlipsideData` of the ShroomDK variant: sample the bare rows
array, bypass on empty data with the fixed message, otherwise call Gemini
and run the mispathing extraction (no local catch: its throws propagate to
the handler).  The boolean records whether the Gemini call was issued. -/
def summarizeFlipsideDataShroom (flipsideData : Json)
    (sumResp : Except String Json) : Except String String × Bool :=
  let dataToSend := sampleShroomData flipsideData
  if shroomEmptyBypass dataToSend then (.ok flipsideNoDataMsg, false)
  else
    match sumResp with
    | .error e => (.error e, true)
    | .ok result => (shroomExtract result, true)

/-- A well-shaped Gemini success response carrying the given text. -/
def mkGeminiResp (t : String) : Json :=
  Json.obj [("candidates", Json.arr [Json.obj [("content",
    Json.obj [("parts", Json.arr [Json.obj [("text", Json.str t)]])])]])]

/-! ## Claims -/

/-- Claim C1: for every inbound request, the Mobula handler returns 405 with
a plain-text body when the method is not POST, and 400 with a JSON body
carrying an `error` string when the body is unparseable or lacks a
non-empty string `question`; in every rejection case it returns with an
empty external-call trace, i.e. before invoking any collaborator. -/
theorem mobula_inbound_validation (env : MobulaEnv) (event : HttpEvent) :
    (event.httpMethod ≠ "POST" →
      mobulaHandler env event = (methodNotAllowedResponse, [])) ∧
    (event.httpMethod = "POST" → event.body = none →
      mobulaHandler env event = (invalidJsonResponse, [])) ∧
    (∀ j, event.httpMethod = "POST" → event.body = some j →
      (∀ q, parseQuestion (some j) ≠ ParseOutcome.okQuestion q) →
      ∃ m, mobulaHandler env event =
        (⟨400, true, Json.serialize (.obj [("error", .str m)])⟩, [])) := by
  refine ⟨?_, ?_, ?_⟩
  · intro h
    simp [mobulaHandler, h]
  · intro h hb
    simp [mobulaHandler, h, hb, parseQuestion]
  · intro j h hb hbad
    have hcases : parseQuestion (some j) = .badJson ∨
        parseQuestion (some j) = .badQuestion := by
      cases hpq : parseQuestion (some j) with
      | badJson => exact Or.inl rfl
      | badQuestion => exact Or.inr rfl
      | okQuestion q => exact absurd hpq (hbad q)
    rcases hcases with hpq | hpq
    · exact ⟨"Invalid JSON request body.",
        by simp [mobulaHandler, h, hb, hpq, invalidJsonResponse]⟩
    · exact ⟨"Invalid or missing \x27question\x27 in request body.",
        by simp [mobulaHandler, h, hb, hpq, invalidQuestionResponse]⟩

/-- Witness for C1: the three rejection branches at concrete requests, via
`mobula_inbound_validation`. -/
theorem mobula_inbound_validation_witness :
    mobulaHandler ⟨.error "x", fun _ => none, .error "x", .error "x"⟩
        ⟨"GET", none⟩ = (methodNotAllowedResponse, []) ∧
    mobulaHandler ⟨.error "x", fun _ => none, .error "x", .error "x"⟩
        ⟨"POST", none⟩ = (invalidJsonResponse, []) ∧
    ∃ m, mobulaHandler ⟨.error "x", fun _ => none, .error "x", .error "x"⟩
        ⟨"POST", some (Json.obj [("question", Json.str " ")])⟩ =
      (⟨400, true, Json.serialize (.obj [("error", .str m)])⟩, []) := by
  refine ⟨?_, ?_, ?_⟩
  · exact (mobula_inbound_validation _ _).1 (by decide)
  · exact (mobula_inbound_validation _ _).2.1 rfl rfl
  · exact (mobula_inbound_validation _ _).2.2
      (Json.obj [("question", Json.str " ")]) rfl rfl
      (fun q h => by
        have hval : parseQuestion (some (Json.obj [("question", Json.str " ")])) =
            ParseOutcome.badQuestion := by decide
        rw [hval] at h
        exact ParseOutcome.noConfusion h)

/-- Claim C2: for every request that passes inbound validation and whose
pipeline throws in some stage (generation, submission, polling, result
fetch, or summarization), the handler answers 500 with a JSON body whose
`insight` field is the fixed product tag "ChainSage Error: " followed by the
error message — stated for the Flipside V2 handler (the variant with all
five stages) and for the Mobula handler (the cited catch block), which share
the catch logic. -/
theorem pipeline_failure_maps_to_500 (fenv : FlipsideEnv) (menv : MobulaEnv)
    (event : HttpEvent) (j : Json) (q : String)
    (hm : event.httpMethod = "POST") (hb : event.body = some j)
    (hq : parseQuestion (some j) = ParseOutcome.okQuestion q) :
    (∀ m tr, runFlipsidePipeline fenv = (.error m, tr) →
      flipsideHandler fenv event =
        (insightResponse 500 ("ChainSage Error: " ++ m), tr)) ∧
    (∀ m tr, runMobulaPipeline menv = (.error m, tr) →
      mobulaHandler menv event =
        (insightResponse 500 ("ChainSage Error: " ++ m), tr)) := by
  constructor
  · intro m tr hrun
    simp [flipsideHandler, hm, hb, hq, hrun]
  · intro m tr hrun
    simp [mobulaHandler, hm, hb, hq, hrun]

/-- Witness for C2: a concrete POST with a failing generation stage is
answered 500 with the tagged message, via `pipeline_failure_maps_to_500`. -/
theorem pipeline_failure_maps_to_500_witness :
    flipsideHandler
      ⟨.error "boom", .error "x", fun _ => .error "x", .error "x", .error "x",
        fun k => 3000 * k, by intro k; simp [FLIPSIDE_EXECUTION_POLL_INTERVAL]; omega⟩
      ⟨"POST", some (Json.obj [("question", Json.str "What is the ETH balance?")])⟩ =
      (insightResponse 500 "ChainSage Error: boom", [ExtCall.geminiGenerate]) := by
  have h := (pipeline_failure_maps_to_500
    ⟨.error "boom", .error "x", fun _ => .error "x", .error "x", .error "x",
      fun k => 3000 * k, by intro k; simp [FLIPSIDE_EXECUTION_POLL_INTERVAL]; omega⟩
    ⟨.error "y", fun _ => none, .error "y", .error "y"⟩
    ⟨"POST", some (Json.obj [("question", Json.str "What is the ETH balance?")])⟩
    (Json.obj [("question", Json.str "What is the ETH balance?")])
    "What is the ETH balance?" rfl rfl (by decide)).1
  exact h "boom" [ExtCall.geminiGenerate] rfl

/-- Claim C3: for every question whose cleaned NL-to-SQL output starts with
the sentinel "ERROR:" or is shorter than the minimal plausible length (5),
the Flipside V2 generator throws the generation failure and the pipeline
fails with only the generation LLM call in its trace — before any
data-provider call (submit, poll, or result fetch). -/
theorem generation_failure_before_provider (env : FlipsideEnv)
    (data : Json) (t : String)
    (hresp : env.geminiSqlResp = .ok data)
    (htext : geminiText data = some (Json.str t)) (hne : t ≠ "")
    (hbad : strStartsWith (cleanGeneratedSql t) "ERROR:" = true ∨
      (cleanGeneratedSql t).length < 5) :
    runFlipsidePipeline env =
      (.error "Gemini could not formulate a SQL query for the question.",
        [ExtCall.geminiGenerate]) := by
  have hgen : convertNLtoSQL env.geminiSqlResp =
      .error "Gemini could not formulate a SQL query for the question." := by
    rw [hresp]
    simp only [convertNLtoSQL, htext]
    rw [if_neg hne]
    rcases hbad with hb | hb <;> simp [hb]
  simp [runFlipsidePipeline, hgen]

/-- Witness for C3: the sentinel output "ERROR: Cannot formulate query"
fails the pipeline with only the generation call, via
`generation_failure_before_provider`. -/
theorem generation_failure_before_provider_witness :
    runFlipsidePipeline
      ⟨.ok (Json.obj [("candidates", Json.arr [Json.obj [("content",
          Json.obj [("parts", Json.arr [Json.obj
            [("text", Json.str "ERROR: Cannot formulate query")]])])]])]),
        .error "x", fun _ => .error "x", .error "x", .error "x",
        fun k => 3000 * k, by intro k; simp [FLIPSIDE_EXECUTION_POLL_INTERVAL]; omega⟩ =
      (.error "Gemini could not formulate a SQL query for the question.",
        [ExtCall.geminiGenerate]) := by
  exact generation_failure_before_provider _
    (Json.obj [("candidates", Json.arr [Json.obj [("content",
      Json.obj [("parts", Json.arr [Json.obj
        [("text", Json.str "ERROR: Cannot formulate query")]])])]])])
    "ERROR: Cannot formulate query" rfl rfl (by decide)
    (Or.inl (by decide))

/-- Claim C6: for every canonical ResultSet, the sampling step never
increases the row count, never alters the column names, returns the input
unchanged when its serialization is within the 5000-character ceiling, and
above the ceiling keeps exactly the first 50 whole row objects. -/
theorem sampling_law (cols : List String) (rows : List Json) :
    sampleFlipsideData (mkResultSet cols rows) =
      Sum.inl (mkResultSet cols
        (if (Json.serialize (mkResultSet cols rows)).length ≤ MAX_DATA_LENGTH
          then rows else rows.take 50)) ∧
    (if (Json.serialize (mkResultSet cols rows)).length ≤ MAX_DATA_LENGTH
      then rows else rows.take 50).length ≤ rows.length ∧
    ((Json.serialize (mkResultSet cols rows)).length ≤ MAX_DATA_LENGTH →
      sampleFlipsideData (mkResultSet cols rows) =
        Sum.inl (mkResultSet cols rows)) := by
  have htake : rows.take (min rows.length 50) = rows.take 50 := by
    rcases Nat.le_total rows.length 50 with hle | hle
    · rw [Nat.min_eq_left hle, List.take_length, List.take_of_length_le hle]
    · rw [Nat.min_eq_right hle]
  have hbeq1 : ("rows" == "columnNames") = false := by decide
  have hbeq2 : ("columnNames" == "columnNames") = true := by decide
  have hmain : sampleFlipsideData (mkResultSet cols rows) =
      Sum.inl (mkResultSet cols
        (if (Json.serialize (mkResultSet cols rows)).length ≤ MAX_DATA_LENGTH
          then rows else rows.take 50)) := by
    by_cases hlen :
        (Json.serialize (mkResultSet cols rows)).length ≤ MAX_DATA_LENGTH
    · rw [if_pos hlen]
      simp only [sampleFlipsideData]
      rw [if_neg (by omega)]
    · rw [if_neg hlen]
      simp only [sampleFlipsideData]
      rw [if_pos (by omega)]
      simp only [mkResultSet, optField, Option.bind, List.lookup, hbeq1, hbeq2]
      simp [htake]
  refine ⟨hmain, ?_, ?_⟩
  · split
    · exact le_rfl
    · rw [List.length_take]
      omega
  · intro hlen
    rw [hmain, if_pos hlen]

/-- Witness for C6: a small ResultSet under the ceiling passes through the
sampling step unchanged, via `sampling_law`. -/
theorem sampling_law_witness :
    sampleFlipsideData (mkResultSet ["balance"] [Json.obj [("balance", Json.str "1.23")]]) =
      Sum.inl (mkResultSet ["balance"] [Json.obj [("balance", Json.str "1.23")]]) := by
  exact (sampling_law ["balance"] [Json.obj [("balance", Json.str "1.23")]]).2.2
    (by decide)

/-- Counterexample to Claim C7: the Mobula variant has no empty-data bypass.
On a canonical ResultSet with zero rows its summarizer still issues the
second LLM call (the flag is `true`) and returns the model text, not the
fixed "ran successfully but returned no data" message. -/
theorem mobula_empty_rows_counterexample :
    summarizeModulaData (mkResultSet [] [])
        (.ok (mkGeminiResp "The data set is empty.")) =
      (.ok "The data set is empty.", true) := rfl

/-- Claim C7 as amended: in the Flipside V2 variant (whose summarizer
consumes the canonical `{columnNames, rows}` ResultSet) a zero-row ResultSet
bypasses summarization — no LLM call — with the fixed no-data message, and
likewise in the Dune variant for its empty rows array; the Mobula variant
performs no such bypass and always issues the summarization LLM call. -/
theorem empty_rows_bypass_amended :
    (∀ cols resp, summarizeFlipsideData (mkResultSet cols []) resp =
      (.ok flipsideNoDataMsg, false)) ∧
    (∀ resp, summarizeData ([] : List Json) resp =
      ("The query ran successfully but returned no data.", false)) ∧
    (∀ d resp, (summarizeModulaData d resp).2 = true) := by
  refine ⟨?_, ?_, ?_⟩
  · intro cols resp
    have hbeq1 : ("rows" == "columnNames") = false := by decide
    have hbeq2 : ("columnNames" == "columnNames") = true := by decide
    have hbeq3 : ("rows" == "rows") = true := by decide
    have hbyp : flipsideEmptyBypass (sampleFlipsideData (mkResultSet cols [])) = true := by
      simp only [sampleFlipsideData]
      by_cases hlen :
          (Json.serialize (mkResultSet cols [])).length > MAX_DATA_LENGTH
      · rw [if_pos hlen]
        simp [flipsideEmptyBypass, mkResultSet, optField, Json.truthy,
          List.lookup, hbeq1, hbeq2, hbeq3]
      · rw [if_neg hlen]
        simp [flipsideEmptyBypass, mkResultSet, optField, Json.truthy,
          List.lookup, hbeq1, hbeq2, hbeq3]
    simp [summarizeFlipsideData, hbyp]
  · intro resp
    simp [summarizeData]
  · intro d resp
    cases resp with
    | error e => rfl
    | ok r => rfl

/-- Counterexample to Claim C8: the Dune variant stage `summarizeData`
catches its dependency's failure and converts it into a *successful* return
value — an apologetic insight string — instead of propagating it to the
orchestrator's top-level catch. -/
theorem dune_summarize_swallows_failure :
    summarizeData [Json.obj [("balance", Json.str "1.23")]] (.error "boom") =
      ("Unable to generate insights at this time. Error: boom", true) := rfl

/-- Claim C8 as amended: every embedded Flipside V2 stage propagates a
dependency failure upward (generation, submission, polling — where the loop
wraps but still rethrows — result fetch, and summarization whenever its LLM
call was actually issued); the lone exception is the Dune variant
`summarizeData`, which converts any failure of its LLM call on non-empty
rows into a successful apologetic message. -/
theorem propagation_policy_amended :
    (∀ e, convertNLtoSQL (.error e) = .error e) ∧
    (∀ e, submitFlipsideQuery (.error e) = .error e) ∧
    (∀ (env : FlipsideEnv) qid k e,
      env.elapsed k ≤ FLIPSIDE_EXECUTION_MAX_WAIT_TIME →
      env.statusResp k = .error e →
      waitForFlipsideExecution env qid k = (.error (pollWrap qid e), 1)) ∧
    (∀ e, getFlipsideQueryResults (.error e) = .error e) ∧
    (∀ d e, (summarizeFlipsideData d (.error e)).2 = true →
      (summarizeFlipsideData d (.error e)).1 = .error e) ∧
    (∀ rows e, rows ≠ [] → summarizeData rows (.error e) =
      ("Unable to generate insights at this time. Error: " ++ e, true)) := by
  refine ⟨fun e => rfl, fun e => rfl, ?_, fun e => rfl, ?_, ?_⟩
  · intro env qid k e htime hstat
    rw [waitForFlipsideExecution]
    rw [dif_neg (by omega)]
    rw [hstat]
    rfl
  · intro d e hflag
    simp only [summarizeFlipsideData] at hflag ⊢
    by_cases hbyp : flipsideEmptyBypass (sampleFlipsideData d) = true
    · rw [if_pos hbyp] at hflag
      exact absurd hflag (by simp)
    · rw [if_neg hbyp]
  · intro rows e hne
    simp only [summarizeData]
    rw [if_neg ?hlen]
    case hlen =>
      split
      · rw [List.length_take]
        rcases rows with _ | ⟨r, rs⟩
        · exact absurd rfl hne
        · simp
      · simpa using hne

/-- Witness for the amended C8: a failing poll is wrapped and rethrown by
the wait loop, and the Dune summarizer swallows a failing LLM call on
non-empty rows, via `propagation_policy_amended`. -/
theorem propagation_policy_amended_witness :
    waitForFlipsideExecution
      ⟨.error "x", .error "x", fun _ => .error "pollfail", .error "x", .error "x",
        fun k => 3000 * k, by intro k; simp [FLIPSIDE_EXECUTION_POLL_INTERVAL]; omega⟩
      "qr" 0 = (.error (pollWrap "qr" "pollfail"), 1) ∧
    summarizeData [Json.obj [("a", Json.num 1)]] (.error "y") =
      ("Unable to generate insights at this time. Error: y", true) := by
  constructor
  · exact propagation_policy_amended.2.2.1
      ⟨.error "x", .error "x", fun _ => .error "pollfail", .error "x", .error "x",
        fun k => 3000 * k, by intro k; simp [FLIPSIDE_EXECUTION_POLL_INTERVAL]; omega⟩
      "qr" 0 "pollfail" (by decide) rfl
  · exact propagation_policy_amended.2.2.2.2.2
      [Json.obj [("a", Json.num 1)]] "y" (List.cons_ne_nil _ _)

/-- If an `Except` value is never a success, it is some error. -/
theorem except_error_of_ne_ok {X : Except String String}
    (h : ∀ t, X ≠ .ok t) : ∃ e, X = .error e := by
  cases X with
  | error e => exact ⟨e, rfl⟩
  | ok t => exact absurd rfl (h t)

/-- The optional-chaining summarization extraction, stated on the Mobula
summarizer (Flipside V2 shares it verbatim): the stage returns the trimmed
generated text whenever a non-empty string sits at
`candidates[0].content.parts[0].text`, and throws exactly when no such
non-empty text payload is present. -/
theorem summarization_raises_iff (d r : Json) :
    ((∃ t, (summarizeModulaData d (.ok r)).1 = .ok t) ↔
      (∃ s, geminiText r = some (Json.str s) ∧ s ≠ "")) ∧
    (∀ s, geminiText r = some (Json.str s) → s ≠ "" →
      (summarizeModulaData d (.ok r)).1 = .ok (jsTrim s)) ∧
    ((¬ ∃ s, geminiText r = some (Json.str s) ∧ s ≠ "") →
      ∃ e, (summarizeModulaData d (.ok r)).1 = .error e) := by
  have hok : ∀ s, geminiText r = some (Json.str s) → s ≠ "" →
      (summarizeModulaData d (.ok r)).1 = .ok (jsTrim s) := by
    intro s hg hs
    show geminiTrimmedText r _ _ = _
    simp only [geminiTrimmedText, hg]
    rw [if_neg hs]
  have hthrow : (¬ ∃ s, geminiText r = some (Json.str s) ∧ s ≠ "") →
      ∃ e, (summarizeModulaData d (.ok r)).1 = .error e := by
    intro hno
    apply except_error_of_ne_ok
    intro t
    show geminiTrimmedText r _ _ ≠ _
    cases hg : geminiText r with
    | none => simp [geminiTrimmedText, hg]
    | some j =>
      cases j with
      | str s =>
        have hempty : s = "" := by
          by_contra hne
          exact hno ⟨s, hg, hne⟩
        simp [geminiTrimmedText, hg, hempty]
      | null => simp [geminiTrimmedText, hg, Json.truthy]
      | bool b =>
        simp only [geminiTrimmedText, hg]
        split <;> simp
      | num n =>
        simp only [geminiTrimmedText, hg]
        split <;> simp
      | arr xs =>
        simp only [geminiTrimmedText, hg]
        split <;> simp
      | obj fs =>
        simp only [geminiTrimmedText, hg]
        split <;> simp
  refine ⟨⟨?_, ?_⟩, hok, hthrow⟩
  · rintro ⟨t, ht⟩
    by_contra hno
    obtain ⟨e, he⟩ := hthrow hno
    rw [he] at ht
    exact Except.noConfusion ht
  · rintro ⟨s, hg, hs⟩
    exact ⟨jsTrim s, hok s hg hs⟩

/-- Concrete evaluations of `summarization_raises_iff`: a response carrying
text "  The balance is 1.23 ETH.  " summarizes to the trimmed text, and a
response lacking the payload shape errors. -/
theorem summarization_raises_iff_witness :
    (summarizeModulaData (Json.obj []) (.ok (mkGeminiResp "  The balance is 1.23 ETH.  "))).1 =
      .ok (jsTrim "  The balance is 1.23 ETH.  ") ∧
    ∃ e, (summarizeModulaData (Json.obj []) (.ok (Json.obj []))).1 = .error e := by
  constructor
  · exact (summarization_raises_iff (Json.obj [])
      (mkGeminiResp "  The balance is 1.23 ETH.  ")).2.1
      "  The balance is 1.23 ETH.  " rfl (by decide)
  · exact (summarization_raises_iff (Json.obj []) (Json.obj [])).2.2
      (by rintro ⟨s, hg, hs⟩; exact Option.noConfusion hg)

/-- Counterexample to Claim C9: the ShroomDK summarization stage reads
`result[0].content` instead of `result.candidates[0].content`
(`unnamed/part_000`, third document), so on a well-shaped response that does
contain a non-empty text payload at `candidates[0].content.parts[0].text`
it throws a TypeError instead of returning the trimmed text — refuting the
raises-iff contract for the program's summarization stages at large. -/
theorem shroom_summarize_counterexample :
    summarizeFlipsideDataShroom (Json.arr [Json.obj [("balance", Json.str "1.23")]])
        (.ok (mkGeminiResp "The balance is 1.23 ETH.")) =
      (.error "Cannot read properties of undefined (reading \x27content\x27)", true) := rfl

/-- Claim C9 as amended: the raises-iff contract holds for the
optional-chaining summarizers — Mobula, and Flipside V2 whenever its
empty-data bypass does not fire, since they share the extraction — while
the remaining summarization stages deviate from it: the ShroomDK stage
throws a TypeError on every well-shaped response (it reads `result[0]`
instead of `result.candidates[0]`), the Dune stage never throws and turns
extraction failures into a successful apologetic message, and the Covalent
stage answers a present-but-empty text payload with a successful empty
insight. -/
theorem summarization_contract_amended :
    (∀ d r, ((∃ t, (summarizeModulaData d (.ok r)).1 = .ok t) ↔
        (∃ s, geminiText r = some (Json.str s) ∧ s ≠ "")) ∧
      (∀ s, geminiText r = some (Json.str s) → s ≠ "" →
        (summarizeModulaData d (.ok r)).1 = .ok (jsTrim s)) ∧
      ((¬ ∃ s, geminiText r = some (Json.str s) ∧ s ≠ "") →
        ∃ e, (summarizeModulaData d (.ok r)).1 = .error e)) ∧
    (∀ d r, flipsideEmptyBypass (sampleFlipsideData d) = false →
      (summarizeFlipsideData d (.ok r)).1 = (summarizeModulaData d (.ok r)).1) ∧
    (∀ d t, shroomEmptyBypass (sampleShroomData d) = false →
      summarizeFlipsideDataShroom d (.ok (mkGeminiResp t)) =
        (.error "Cannot read properties of undefined (reading \x27content\x27)", true)) ∧
    (∀ rows r e, rows ≠ [] →
      covExtractText r
        "Received invalid response structure from Gemini during summarization." =
          .error e →
      summarizeData rows (.ok r) =
        ("Unable to generate insights at this time. Error: " ++ e, true)) ∧
    (∀ d r s, covalentEmptyBypass (sampleCovalentData d) = false →
      covExtractText r
        "Received invalid response structure from Gemini during summarization." =
          .ok (some (Json.str s)) →
      summarizeCovalentData d (.ok r) = (.ok (jsTrim s), true)) := by
  refine ⟨fun d r => summarization_raises_iff d r, ?_, ?_, ?_, ?_⟩
  · intro d r hbyp
    simp only [summarizeFlipsideData, summarizeModulaData]
    rw [if_neg (by simp [hbyp])]
  · intro d t hbyp
    simp only [summarizeFlipsideDataShroom]
    rw [if_neg (by simp [hbyp])]
    rfl
  · intro rows r e hne hext
    simp only [summarizeData]
    rw [if_neg ?hlen]
    · simp only [hext]
    case hlen =>
      split
      · rw [List.length_take]
        rcases rows with _ | ⟨x, xs⟩
        · exact absurd rfl hne
        · simp
      · simpa using hne
  · intro d r s hbyp hext
    simp only [summarizeCovalentData]
    rw [if_neg (by simp [hbyp])]
    simp only [hext]

/-- Witness for the amended C9: the ShroomDK stage throwing on a concrete
well-shaped response, the Dune stage answering a shape failure with the
apologetic success, and the Covalent stage answering an empty text payload
with a successful empty insight, via `summarization_contract_amended`. -/
theorem summarization_contract_amended_witness :
    summarizeFlipsideDataShroom (Json.arr [Json.obj [("a", Json.num 1)]])
        (.ok (mkGeminiResp "Hello")) =
      (.error "Cannot read properties of undefined (reading \x27content\x27)", true) ∧
    summarizeData [Json.obj [("a", Json.num 1)]] (.ok (Json.obj [])) =
      ("Unable to generate insights at this time. Error: Received invalid response structure from Gemini during summarization.",
        true) ∧
    summarizeCovalentData (Json.num 1) (.ok (mkGeminiResp "")) =
      (.ok (jsTrim ""), true) := by
  refine ⟨?_, ?_, ?_⟩
  · exact summarization_contract_amended.2.2.1
      (Json.arr [Json.obj [("a", Json.num 1)]]) "Hello" rfl
  · exact summarization_contract_amended.2.2.2.1 [Json.obj [("a", Json.num 1)]]
      (Json.obj []) _ (List.cons_ne_nil _ _) rfl
  · exact summarization_contract_amended.2.2.2.2 (Json.num 1) (mkGeminiResp "")
      "" rfl rfl

/-- Claim C4: whenever a status poll of the Flipside V2 wait loop returns a
status string outside the provider vocabulary (COMPLETED, FAILED,
CANCELLED, RUNNING, PENDING, CANCELLING), the loop terminates at once with
an execution failure carrying the unrecognized status, with exactly that
one poll performed and no further ones. -/
theorem unknown_status_fails_fast (env : FlipsideEnv) (qid s : String) (k : Nat)
    (htime : env.elapsed k ≤ FLIPSIDE_EXECUTION_MAX_WAIT_TIME)
    (hstat : getFlipsideQueryStatus (env.statusResp k) = .ok (Json.str s))
    (hvocab : s ∉ (["COMPLETED", "FAILED", "CANCELLED", "RUNNING", "PENDING",
      "CANCELLING"] : List String)) :
    waitForFlipsideExecution env qid k =
      (.error (pollWrap qid
        ("Encountered unknown Flipside execution status: " ++ s)), 1) := by
  simp only [List.mem_cons, List.mem_singleton, not_or] at hvocab
  obtain ⟨h1, h2, h3, h4, h5, h6⟩ := hvocab
  rw [waitForFlipsideExecution, dif_neg (by omega), hstat]
  simp [Json.isStr, Json.jsToString, h1, h2, h3, h4, h5, h6]

/-- Witness for C4: a concrete loop observing the unrecognized status
"QUEUED" fails immediately after one poll, via `unknown_status_fails_fast`. -/
theorem unknown_status_fails_fast_witness :
    waitForFlipsideExecution
      ⟨.error "x", .error "x",
        fun _ => .ok (Json.obj [("result", Json.obj [("status", Json.str "QUEUED")])]),
        .error "x", .error "x", fun k => 3000 * k,
        by intro k; simp [FLIPSIDE_EXECUTION_POLL_INTERVAL]; omega⟩
      "qr" 0 =
      (.error (pollWrap "qr"
        ("Encountered unknown Flipside execution status: " ++ "QUEUED")), 1) := by
  exact unknown_status_fails_fast _ "qr" "QUEUED" 0 (by decide) rfl (by decide)

/-- Claim C5: under a provider whose every status poll answers a
PENDING-class status (RUNNING, PENDING, or CANCELLING), the Flipside V2 wait
loop is no infinite loop: it terminates with the timeout failure at an
iteration whose elapsed wall clock (measured from loop entry) strictly
exceeds the configured ceiling, having performed exactly the polls of the
earlier iterations and none after the throw. -/
theorem always_pending_times_out (env : FlipsideEnv) (qid : String)
    (hpend : ∀ i, ∃ s,
      getFlipsideQueryStatus (env.statusResp i) = .ok (Json.str s) ∧
      (s = "RUNNING" ∨ s = "PENDING" ∨ s = "CANCELLING")) :
    ∀ k, ∃ n,
      waitForFlipsideExecution env qid k = (.error flipsideTimeoutMsg, n) ∧
      FLIPSIDE_EXECUTION_MAX_WAIT_TIME < env.elapsed (k + n) := by
  have main : ∀ m k,
      FLIPSIDE_EXECUTION_MAX_WAIT_TIME + 1 - env.elapsed k ≤ m →
      ∃ n, waitForFlipsideExecution env qid k = (.error flipsideTimeoutMsg, n) ∧
        FLIPSIDE_EXECUTION_MAX_WAIT_TIME < env.elapsed (k + n) := by
    intro m
    induction m with
    | zero =>
      intro k hk
      have hlt : FLIPSIDE_EXECUTION_MAX_WAIT_TIME < env.elapsed k := by omega
      refine ⟨0, ?_, by simpa using hlt⟩
      rw [waitForFlipsideExecution, dif_pos hlt]
    | succ m ih =>
      intro k hk
      by_cases hlt : FLIPSIDE_EXECUTION_MAX_WAIT_TIME < env.elapsed k
      · refine ⟨0, ?_, by simpa using hlt⟩
        rw [waitForFlipsideExecution, dif_pos hlt]
      · have hstep := env.elapsed_step k
        have hk1 : FLIPSIDE_EXECUTION_MAX_WAIT_TIME + 1 - env.elapsed (k + 1) ≤ m := by
          simp only [FLIPSIDE_EXECUTION_POLL_INTERVAL] at hstep
          omega
        obtain ⟨n, hn, hgt⟩ := ih (k + 1) hk1
        obtain ⟨s, hs, hcls⟩ := hpend k
        refine ⟨n + 1, ?_, ?_⟩
        · rw [waitForFlipsideExecution, dif_neg hlt, hs]
          rcases hcls with h | h | h <;> subst h <;> simp [Json.isStr, hn]
        · have harr : k + (n + 1) = (k + 1) + n := by omega
          rw [harr]
          exact hgt
  exact fun k => main (FLIPSIDE_EXECUTION_MAX_WAIT_TIME + 1 - env.elapsed k) k le_rfl

/-- Witness for C5: a provider answering "PENDING" forever drives a concrete
loop into the timeout failure past the ceiling, via
`always_pending_times_out`. -/
theorem always_pending_times_out_witness :
    ∃ n,
      waitForFlipsideExecution
        ⟨.error "x", .error "x",
          fun _ => .ok (Json.obj [("result", Json.obj [("status", Json.str "PENDING")])]),
          .error "x", .error "x", fun k => 3000 * k,
          by intro k; simp [FLIPSIDE_EXECUTION_POLL_INTERVAL]; omega⟩
        "qr" 0 = (.error flipsideTimeoutMsg, n) ∧
      FLIPSIDE_EXECUTION_MAX_WAIT_TIME < 3000 * (0 + n) := by
  exact always_pending_times_out
    ⟨.error "x", .error "x",
      fun _ => .ok (Json.obj [("result", Json.obj [("status", Json.str "PENDING")])]),
      .error "x", .error "x", fun k => 3000 * k,
      by intro k; simp [FLIPSIDE_EXECUTION_POLL_INTERVAL]; omega⟩
    "qr" (fun i => ⟨"PENDING", rfl, Or.inr (Or.inl rfl)⟩) 0

/-- Claim C10 (implicit): whenever the Query Generator's structured output
reports the question cannot be answered as posed — Mobula: `can_query`
falsy; Covalent: some `requires_*` flag truthy — the handler answers 200
(not an error status) with an informational message in the `insight` field,
and the data provider is never called (its call is absent from the trace). -/
theorem cannot_answer_yields_200 (menv : MobulaEnv) (cenv : CovalentEnv)
    (event : HttpEvent) (j : Json) (q : String)
    (hm : event.httpMethod = "POST") (hb : event.body = some j)
    (hq : parseQuestion (some j) = ParseOutcome.okQuestion q) :
    (∀ data t fs m,
      menv.geminiEndpointResp = .ok data →
      geminiText data = some (Json.str t) → t ≠ "" →
      menv.jparse (jsTrim t) = some (Json.obj fs) →
      jsTruthy (List.lookup "can_query" fs) = false →
      List.lookup "message" fs = some (Json.str m) →
      mobulaHandler menv event =
        (⟨200, true, Json.serialize (.obj [("insight", .str m)])⟩,
          [ExtCall.geminiGenerate])) ∧
    (∀ sql mapping,
      convertNLtoSQLCovalent cenv.geminiSqlResp = .ok sql →
      mapSQLtoCovalentApi cenv.geminiMapResp cenv.jparse = .ok mapping →
      (jsTruthy (optField (some mapping) "requires_address")
        || jsTruthy (optField (some mapping) "requires_contract")
        || jsTruthy (optField (some mapping) "requires_token_id")) = true →
      covalentHandler cenv event =
        (insightResponse 200 (covMissingMsg
          (jsTruthy (optField (some mapping) "requires_address"))
          (jsTruthy (optField (some mapping) "requires_contract"))
          (jsTruthy (optField (some mapping) "requires_token_id"))),
          [ExtCall.geminiGenerate, ExtCall.geminiMapping])) := by
  constructor
  · intro data t fs m hresp htext hne hparse hcq hmsg
    have hep : getModulaEndpointAndParams menv.geminiEndpointResp menv.jparse =
        .ok (Json.obj fs) := by
      rw [hresp]
      simp only [getModulaEndpointAndParams, htext]
      rw [if_neg hne, hparse]
    have hrun : runMobulaPipeline menv =
        (.ok (.cannotQuery (some (Json.str m))), [ExtCall.geminiGenerate]) := by
      simp only [runMobulaPipeline, hep, jsGetMember]
      rw [if_pos (by simp [hcq])]
      simp [optField, hmsg]
    simp [mobulaHandler, hm, hb, hq, hrun, stringifyInsightField]
  · intro sql mapping hsql hmap hflags
    have hrun : runCovalentPipeline cenv =
        (.ok (.needsInfo (covMissingMsg
          (jsTruthy (optField (some mapping) "requires_address"))
          (jsTruthy (optField (some mapping) "requires_contract"))
          (jsTruthy (optField (some mapping) "requires_token_id")))),
          [ExtCall.geminiGenerate, ExtCall.geminiMapping]) := by
      simp only [runCovalentPipeline, hsql, hmap]
      rw [if_pos hflags]
    simp [covalentHandler, hm, hb, hq, hrun]

/-- Witness for C10: a concrete Mobula `can_query: false` answer and a
concrete Covalent `requires_address: true` mapping both produce 200
informational responses without a data-provider call, via
`cannot_answer_yields_200`. -/
theorem cannot_answer_yields_200_witness :
    mobulaHandler
      ⟨.ok (mkGeminiResp "ANSWER"),
        fun _ => some (Json.obj [("can_query", Json.bool false),
          ("message", Json.str "Missing parameters: id.")]),
        .error "x", .error "x"⟩
      ⟨"POST", some (Json.obj [("question", Json.str "Show history")])⟩ =
      (⟨200, true,
        Json.serialize (.obj [("insight", .str "Missing parameters: id.")])⟩,
        [ExtCall.geminiGenerate]) ∧
    covalentHandler
      ⟨.ok (mkGeminiResp "SELECT balance FROM balances"),
        .ok (mkGeminiResp "MAPPING"),
        fun _ => some (Json.obj [("endpoint", Json.str "/v1/1/a/balances_v2/"),
          ("method", Json.str "GET"), ("parameters", Json.obj []),
          ("requires_address", Json.bool true)]),
        .error "x", .error "x"⟩
      ⟨"POST", some (Json.obj [("question", Json.str "Show history")])⟩ =
      (insightResponse 200 (covMissingMsg true false false),
        [ExtCall.geminiGenerate, ExtCall.geminiMapping]) := by
  constructor
  · exact (cannot_answer_yields_200
      ⟨.ok (mkGeminiResp "ANSWER"),
        fun _ => some (Json.obj [("can_query", Json.bool false),
          ("message", Json.str "Missing parameters: id.")]),
        .error "x", .error "x"⟩
      ⟨.error "y", .error "y", fun _ => none, .error "y", .error "y"⟩
      ⟨"POST", some (Json.obj [("question", Json.str "Show history")])⟩
      (Json.obj [("question", Json.str "Show history")]) "Show history"
      rfl rfl (by decide)).1
      (mkGeminiResp "ANSWER") "ANSWER"
      [("can_query", Json.bool false), ("message", Json.str "Missing parameters: id.")]
      "Missing parameters: id." rfl rfl (by decide) rfl rfl rfl
  · exact (cannot_answer_yields_200
      ⟨.error "y", fun _ => none, .error "y", .error "y"⟩
      ⟨.ok (mkGeminiResp "SELECT balance FROM balances"),
        .ok (mkGeminiResp "MAPPING"),
        fun _ => some (Json.obj [("endpoint", Json.str "/v1/1/a/balances_v2/"),
          ("method", Json.str "GET"), ("parameters", Json.obj []),
          ("requires_address", Json.bool true)]),
        .error "x", .error "x"⟩
      ⟨"POST", some (Json.obj [("question", Json.str "Show history")])⟩
      (Json.obj [("question", Json.str "Show history")]) "Show history"
      rfl rfl (by decide)).2
      "SELECT balance FROM balances"
      (Json.obj [("endpoint", Json.str "/v1/1/a/balances_v2/"),
        ("method", Json.str "GET"), ("parameters", Json.obj []),
        ("requires_address", Json.bool true)])
      rfl rfl rfl
